import Mathlib

/-!
Verification of the Discord Rich Presence plugin (Go, `main.go`).

The development shallowly embeds the plugin's pure helpers
(`parsePrimaryArtist`, `spotifyCacheKey`, `buildSpotifySearchURL`,
`spotifySearch`, `parseSpotifyID`) as executable Lean functions over
strings and byte lists, and embeds the effectful operations
(`resolveSpotifyURL`, `getConfig`, `IsAuthorized`, `NowPlaying`) as
state-passing functions over an explicit environment of collaborator
oracles (cache, HTTP lookups, transport, scheduler), returning a result
together with the ordered list of collaborator calls (effects) issued.

Modelling conventions:
- Go strings are Lean `String`s; Go `[]byte` is `List Nat` (each < 256),
  produced from strings by UTF-8 encoding.
- Go's `strings.ToLower`, `strings.TrimSpace` are modelled on their
  ASCII behaviour (the plugin's separators and configuration keys are
  all ASCII).
- `json.Unmarshal` (Go standard library) is modelled at its boundary:
  the decoded value (or a decode failure) is an input, since the JSON
  decoder is an external library, not plugin code.
- Machine integers: Discord timestamps use `Int` (int64 overflow is out
  of range for any realistic clock); the int32 schedule-delay arithmetic
  is modelled with explicit wrap-around (`wrap32`).
-/

/-! ## Go string primitives (ASCII model) -/

/-- ASCII whitespace, as recognised by Go's `unicode.IsSpace` in the
ASCII range: space, tab, newline, vertical tab, form feed, carriage
return. -/
def goSpace (c : Char) : Bool :=
  c = ' ' || c = '\t' || c = '\n' || c = '\x0b' || c = '\x0c' || c = '\r'

/-- Drop leading whitespace from a character list. -/
def trimLeftL : List Char → List Char
  | [] => []
  | c :: cs => if goSpace c then trimLeftL cs else c :: cs

/-- Go `strings.TrimSpace` on a character list: drop leading and
trailing whitespace. -/
def trimSpaceL (l : List Char) : List Char :=
  (trimLeftL (trimLeftL l).reverse).reverse

/-- Go `strings.TrimSpace` on a string. -/
def strTrimSpace (s : String) : String :=
  String.mk (trimSpaceL s.toList)

/-- Does `pat` occur at the head of `hay`? (Go `strings.HasPrefix`.) -/
def leadsWith : List Char → List Char → Bool
  | [], _ => true
  | _ :: _, [] => false
  | p :: ps, h :: hs => p = h && leadsWith ps hs

/-- Go `strings.Index` on character lists: index of the first occurrence
of `pat` in `hay`, or `none` (Go returns -1). -/
def strIndexL (hay pat : List Char) : Option Nat :=
  if leadsWith pat hay then some 0
  else
    match hay with
    | [] => none
    | _ :: t => (strIndexL t pat).map (fun n => n + 1)

/-- Go `strings.ToLower` on a string (ASCII model, via core
`Char.toLower`, which lowers exactly the basic latin letters). -/
def strToLower (s : String) : String :=
  String.mk (s.toList.map Char.toLower)

/-! ## `parsePrimaryArtist` (src/main.go) -/

/-- The featuring separators, in the order the Go loop tries them. -/
def featSeps : List (List Char) :=
  [" feat. ".toList, " ft. ".toList, " featuring ".toList]

/-- The co-artist separators, in the order the Go loop tries them. -/
def coSeps : List (List Char) :=
  [" & ".toList, " / ".toList]

/-- The Go separator loop: try each separator in list order and return
the index of the leftmost occurrence of the first one that occurs. -/
def firstSepHit (hay : List Char) : List (List Char) → Option Nat
  | [] => none
  | sep :: rest =>
    match strIndexL hay sep with
    | some i => some i
    | none => firstSepHit hay rest

/-- Embedding of `parsePrimaryArtist` (src/main.go): trim the artist;
if empty return ("", ""); otherwise look for a featuring separator
case-insensitively (in separator-list order), splitting at it; otherwise
look for a co-artist separator in the original case; otherwise the whole
trimmed string is the primary artist. -/
def parsePrimaryArtist (artist : String) : String × String :=
  let a := trimSpaceL artist.toList
  if a.isEmpty then ("", "")
  else
    let lower := a.map Char.toLower
    match firstSepHit lower featSeps with
    | some i => (String.mk (trimSpaceL (a.take i)), String.mk (trimSpaceL (a.drop i)))
    | none =>
      match firstSepHit a coSeps with
      | some i => (String.mk (trimSpaceL (a.take i)), "")
      | none => (String.mk a, "")

/-! ## UTF-8 encoding and URL path escaping -/

/-- UTF-8 encoding of a single scalar value, as a list of bytes. -/
def utf8Char (c : Char) : List Nat :=
  let n := c.toNat
  if n < 128 then [n]
  else if n < 2048 then [192 ||| (n >>> 6), 128 ||| (n &&& 63)]
  else if n < 65536 then
    [224 ||| (n >>> 12), 128 ||| ((n >>> 6) &&& 63), 128 ||| (n &&& 63)]
  else
    [240 ||| (n >>> 18), 128 ||| ((n >>> 12) &&& 63),
     128 ||| ((n >>> 6) &&& 63), 128 ||| (n &&& 63)]

/-- UTF-8 bytes of a string (Go `[]byte(s)`). -/
def utf8Bytes (s : String) : List Nat :=
  (s.toList.map utf8Char).flatten

/-- Bytes kept verbatim by Go's `url.PathEscape` (mode
`encodePathSegment`): alphanumerics, the unreserved marks `- _ . ~`, and
the reserved characters `$ & + : = @` that RFC 3986 allows in a path
segment. Everything else (including `/ ; , ?` and all non-ASCII bytes)
is percent-encoded. -/
def pathSegmentKeep (b : Nat) : Bool :=
  (48 ≤ b && b ≤ 57) || (65 ≤ b && b ≤ 90) || (97 ≤ b && b ≤ 122) ||
  b = 45 || b = 95 || b = 46 || b = 126 ||
  b = 36 || b = 38 || b = 43 || b = 58 || b = 61 || b = 64

/-- Uppercase hexadecimal digit (for percent-encoding). -/
def hexDigitU (n : Nat) : Char :=
  if n < 10 then Char.ofNat (48 + n) else Char.ofNat (55 + n)

/-- Lowercase hexadecimal digit (for `hex.EncodeToString`). -/
def hexDigitL (n : Nat) : Char :=
  if n < 10 then Char.ofNat (48 + n) else Char.ofNat (87 + n)

/-- Escape one byte for a URL path segment. -/
def pathEscapeByte (b : Nat) : List Char :=
  if pathSegmentKeep b then [Char.ofNat b]
  else ['%', hexDigitU (b / 16), hexDigitU (b % 16)]

/-- Go `url.PathEscape`. -/
def pathEscape (s : String) : String :=
  String.mk ((utf8Bytes s).map pathEscapeByte).flatten

/-- Go `hex.EncodeToString` on a byte list (lowercase hex). -/
def hexEncode (bytes : List Nat) : String :=
  String.mk (bytes.map (fun b => [hexDigitL (b / 16), hexDigitL (b % 16)])).flatten

/-! ## `buildSpotifySearchURL` and `spotifySearch` (src/main.go) -/

/-- Embedding of `buildSpotifySearchURL` (src/main.go): join artist and
title with a space, trim; the bare search root if the query is empty,
otherwise the search root plus the path-escaped query. -/
def buildSpotifySearchURL (title artist : String) : String :=
  let query := strTrimSpace (artist ++ " " ++ title)
  if query = "" then "https://open.spotify.com/search/"
  else "https://open.spotify.com/search/" ++ pathEscape query

/-- Embedding of `spotifySearch` (src/main.go): search URL for a single
trimmed term, or "" if the term trims to empty. -/
def spotifySearch (term : String) : String :=
  let t := strTrimSpace term
  if t = "" then "" else "https://open.spotify.com/search/" ++ pathEscape t

/-! ## SHA-256 (crypto/sha256) over byte lists, words as `Nat % 2^32` -/

/-- 2^32, the word modulus. -/
def M32 : Nat := 4294967296

/-- Addition modulo 2^32. -/
def add32 (a b : Nat) : Nat := (a + b) % M32

/-- Rotate a 32-bit word right by n bit positions. -/
def rotr32 (n x : Nat) : Nat := ((x >>> n) ||| (x <<< (32 - n))) % M32

/-- Bitwise complement of a 32-bit word. -/
def not32 (x : Nat) : Nat := x ^^^ 4294967295

/-- SHA-256 `Ch` function. -/
def ch32 (x y z : Nat) : Nat := (x &&& y) ^^^ (not32 x &&& z)

/-- SHA-256 `Maj` function. -/
def maj32 (x y z : Nat) : Nat := (x &&& y) ^^^ (x &&& z) ^^^ (y &&& z)

/-- SHA-256 big sigma 0. -/
def bsig0 (x : Nat) : Nat := rotr32 2 x ^^^ rotr32 13 x ^^^ rotr32 22 x

/-- SHA-256 big sigma 1. -/
def bsig1 (x : Nat) : Nat := rotr32 6 x ^^^ rotr32 11 x ^^^ rotr32 25 x

/-- SHA-256 small sigma 0. -/
def ssig0 (x : Nat) : Nat := rotr32 7 x ^^^ rotr32 18 x ^^^ (x >>> 3)

/-- SHA-256 small sigma 1. -/
def ssig1 (x : Nat) : Nat := rotr32 17 x ^^^ rotr32 19 x ^^^ (x >>> 10)

/-- The 64 SHA-256 round constants of FIPS 180-4, as decimal `Nat`
literals. -/
def sha256K : List Nat :=
  [1116352408, 1899447441, 3049323471, 3921009573, 961987163,
   1508970993, 2453635748, 2870763221, 3624381080, 310598401,
   607225278, 1426881987, 1925078388, 2162078206, 2614888103,
   3248222580, 3835390401, 4022224774, 264347078, 604807628,
   770255983, 1249150122, 1555081692, 1996064986, 2554220882,
   2821834349, 2952996808, 3210313671, 3336571891, 3584528711,
   113926993, 338241895, 666307205, 773529912, 1294757372,
   1396182291, 1695183700, 1986661051, 2177026350, 2456956037,
   2730485921, 2820302411, 3259730800, 3345764771, 3516065817,
   3600352804, 4094571909, 275423344, 430227734, 506948616,
   659060556, 883997877, 958139571, 1322822218, 1537002063,
   1747873779, 1955562222, 2024104815, 2227730452, 2361852424,
   2428436474, 2756734187, 3204031479, 3329325298]

/-- SHA-256 working state: eight 32-bit words. -/
structure S256 where
  a : Nat
  b : Nat
  c : Nat
  d : Nat
  e : Nat
  f : Nat
  g : Nat
  h : Nat
deriving Repr, DecidableEq

/-- The eight initial hash words of SHA-256, as decimal `Nat`
literals. -/
def sha256Init : S256 :=
  ⟨1779033703, 3144134277, 1013904242, 2773480762,
   1359893119, 2600822924, 528734635, 1541459225⟩

/-- The eight big-endian bytes of a 64-bit length field. -/
def be64 (n : Nat) : List Nat :=
  [(n >>> 56) % 256, (n >>> 48) % 256, (n >>> 40) % 256, (n >>> 32) % 256,
   (n >>> 24) % 256, (n >>> 16) % 256, (n >>> 8) % 256, n % 256]

/-- The four big-endian bytes of a 32-bit word. -/
def be32 (n : Nat) : List Nat :=
  [(n >>> 24) % 256, (n >>> 16) % 256, (n >>> 8) % 256, n % 256]

/-- SHA-256 message padding: append 0x80, zero bytes up to 56 mod 64,
then the bit length as eight big-endian bytes. -/
def sha256Pad (msg : List Nat) : List Nat :=
  let padLen := (119 - (msg.length % 64)) % 64
  msg ++ 128 :: List.replicate padLen 0 ++ be64 (msg.length * 8)

/-- Split a byte list into 64-byte chunks. -/
def chunks64 (l : List Nat) : List (List Nat) :=
  if l.isEmpty then [] else l.take 64 :: chunks64 (l.drop 64)
termination_by l.length
decreasing_by
  simp [List.isEmpty_iff] at *
  cases l
  · simp_all
  · simp

/-- The j-th big-endian 32-bit word of a chunk. -/
def word32At (chunk : List Nat) (j : Nat) : Nat :=
  ((chunk.getD (4 * j) 0) <<< 24) ||| ((chunk.getD (4 * j + 1) 0) <<< 16) |||
  ((chunk.getD (4 * j + 2) 0) <<< 8) ||| (chunk.getD (4 * j + 3) 0)

/-- The SHA-256 message schedule for one chunk. -/
def wsched (chunk : List Nat) (i : Nat) : Nat :=
  if h : i < 16 then word32At chunk i
  else
    add32 (add32 (ssig1 (wsched chunk (i - 2))) (wsched chunk (i - 7)))
      (add32 (ssig0 (wsched chunk (i - 15))) (wsched chunk (i - 16)))
termination_by i
decreasing_by all_goals omega

/-- One SHA-256 compression round. -/
def roundStep (w k : Nat) (s : S256) : S256 :=
  let t1 := add32 s.h (add32 (bsig1 s.e) (add32 (ch32 s.e s.f s.g) (add32 k w)))
  let t2 := add32 (bsig0 s.a) (maj32 s.a s.b s.c)
  ⟨add32 t1 t2, s.a, s.b, s.c, add32 s.d t1, s.e, s.f, s.g⟩

/-- Compress one 64-byte chunk into the running state. -/
def compressChunk (st : S256) (chunk : List Nat) : S256 :=
  let fin := (List.range 64).foldl
    (fun s i => roundStep (wsched chunk i) (sha256K.getD i 0) s) st
  ⟨add32 st.a fin.a, add32 st.b fin.b, add32 st.c fin.c, add32 st.d fin.d,
   add32 st.e fin.e, add32 st.f fin.f, add32 st.g fin.g, add32 st.h fin.h⟩

/-- SHA-256 digest (32 bytes) of a byte list (Go `sha256.Sum256`). -/
def sha256 (msg : List Nat) : List Nat :=
  let st := (chunks64 (sha256Pad msg)).foldl compressChunk sha256Init
  be32 st.a ++ be32 st.b ++ be32 st.c ++ be32 st.d ++
  be32 st.e ++ be32 st.f ++ be32 st.g ++ be32 st.h

/-! ## `spotifyCacheKey` (src/main.go) -/

/-- The byte string hashed by `spotifyCacheKey`: the UTF-8 bytes of
`lower(artist) + NUL + lower(title) + NUL + lower(album)` (the bytes of
a Go string concatenation are the concatenation of the parts' bytes). -/
def keyMessage (artist title album : String) : List Nat :=
  utf8Bytes (strToLower artist) ++ 0 :: utf8Bytes (strToLower title) ++
    0 :: utf8Bytes (strToLower album)

/-- The cache key built from a hash input: namespace tag plus the
lowercase hex of the first 8 digest bytes. -/
def keyOfMessage (msg : List Nat) : String :=
  "spotify.url." ++ hexEncode ((sha256 msg).take 8)

/-- Embedding of `spotifyCacheKey` (src/main.go): SHA-256 the NUL-joined
lower-cased triple and keep 8 digest bytes as 16 hex characters. -/
def spotifyCacheKey (artist title album : String) : String :=
  keyOfMessage (keyMessage artist title album)

/-- Cache TTL for resolved direct URLs: 30 days, in seconds. -/
def spotifyCacheTTLHit : Int := 30 * 24 * 60 * 60

/-- Cache TTL for fallback search URLs: 4 hours, in seconds. -/
def spotifyCacheTTLMiss : Int := 4 * 60 * 60

/-! ## `parseSpotifyID` (src/main.go)

The JSON decoder (`encoding/json`) is standard-library code, not plugin
code, so it is modelled at its boundary: the input is the result of
`json.Unmarshal` into `[]listenBrainzResult` — `none` for a decode
error (malformed JSON), `some results` for success. -/

/-- Embedding of `listenBrainzResult` (src/main.go): the relevant field
of a ListenBrainz Labs result object. -/
structure listenBrainzResult where
  SpotifyTrackIDs : List String
deriving Repr, DecidableEq

/-- The inner Go loop of `parseSpotifyID`: first non-empty id of one
result's list, if any. -/
def firstNonEmptyID : List String → Option String
  | [] => none
  | id :: rest => if id ≠ "" then some id else firstNonEmptyID rest

/-- The outer Go loop of `parseSpotifyID`: scan results in order,
returning the first non-empty id, or "" when there is none. -/
def scanResults : List listenBrainzResult → String
  | [] => ""
  | r :: rest =>
    match firstNonEmptyID r.SpotifyTrackIDs with
    | some id => id
    | none => scanResults rest

/-- Embedding of `parseSpotifyID` (src/main.go): "" on a decode error,
otherwise the first non-empty id in scan order. -/
def parseSpotifyID (decoded : Option (List listenBrainzResult)) : String :=
  match decoded with
  | none => ""
  | some results => scanResults results

/-! ## Collaborator environment and effect traces

`resolveSpotifyURL` and `NowPlaying` interact with host collaborators
(cache, HTTP lookup service, presence transport, scheduler, artwork
resolver). The embedding passes an environment of oracles fixing each
collaborator's reply, and returns the ordered list of collaborator
calls actually issued, so that theorems can speak about which external
calls happen and in which order. -/

/-- Result of `host.CacheGetString`: (value, exists, err). -/
structure CacheReply where
  value : String
  here : Bool
  fail : Bool
deriving Repr, DecidableEq

/-- Embedding of `userToken` (src/main.go). -/
structure userTokenEntry where
  Username : String
  Token : String
deriving Repr, DecidableEq

/-- Embedding of `scrobbler.ArtistRef` as used by src/main.go: a
structured artist reference with a display name. -/
structure ArtistRef where
  Name : String
deriving Repr, DecidableEq

/-- Embedding of `scrobbler.TrackInfo` as used by src/main.go: title,
raw artist string, album, duration in seconds, structured artist list,
optional recording MBID, and the opaque track id used for artwork. -/
structure TrackInfo where
  ID : String
  Title : String
  Artist : String
  Album : String
  Duration : Int
  Artists : List ArtistRef
  MBZRecordingID : String
deriving Repr, DecidableEq

/-- Embedding of `scrobbler.NowPlayingRequest` as used by src/main.go. -/
structure NowPlayingRequest where
  Username : String
  Track : TrackInfo
  Position : Int
deriving Repr, DecidableEq

/-- Modelled from the spec: the timestamps block of the outbound
activity payload (start/end in milliseconds), from the `activity`
struct literal in src/main.go; the struct itself is declared in a
repository file not under src/. -/
structure activityTimestamps where
  Start : Int
  End : Int
deriving Repr, DecidableEq

/-- Modelled from the spec: the asset block of the outbound activity
payload, from the `activity` struct literal in src/main.go; the struct
itself is declared in a repository file not under src/. -/
structure activityAssets where
  LargeImage : String
  LargeText : String
  LargeURL : String
  SmallImage : String
  SmallText : String
deriving Repr, DecidableEq

/-- Modelled from the spec: the outbound activity payload, with exactly
the fields assigned by the struct literal in src/main.go; the struct
itself is declared in a repository file not under src/. (`Type` is a
Lean keyword, so that field is embedded as `TypeField`.) -/
structure activity where
  Application : String
  Name : String
  TypeField : Int
  Details : String
  DetailsURL : String
  State : String
  StateURL : String
  StatusDisplayType : Option Int
  Timestamps : activityTimestamps
  Assets : activityAssets
deriving Repr, DecidableEq

/-- Modelled from the spec: the clear-activity payload tag constant
`payloadClearActivity`, declared in a repository file not under src/;
the spec fixes only that it is a distinguished "clear" tag. -/
def payloadClearActivity : String := "clear-activity"

/-- Modelled from the spec: the heartbeat payload tag constant
`payloadHeartbeat`, declared in a repository file not under src/. -/
def payloadHeartbeat : String := "heartbeat"

/-- One collaborator call, in the order issued. -/
inductive Effect where
  | cacheGet (key : String)
  | cacheSet (key value : String) (ttl : Int)
  | lookupMBID (mbid : String)
  | lookupMetadata (artist title album : String)
  | connect (username token : String)
  | getImage (username trackID : String)
  | sendActivity (clientID username token : String) (act : activity)
  | cancelSchedule (scheduleID : String)
  | scheduleOneTime (delay : Int) (payload : String) (scheduleID : String)
deriving Repr, DecidableEq

/-- The collaborator oracle environment: configuration values, cache
replies, lookup results (the `trySpotifyFromMBID` /
`trySpotifyFromMetadata` return values — "" for any HTTP failure or
id-free response), transport and scheduler outcomes, artwork URLs, and
the clock. -/
structure Env where
  clientID : Option String
  usersJSON : Option String
  usersDecoded : Option (List userTokenEntry)
  activityNameOption : Option String
  navLogoOption : Option String
  cacheGet : String → CacheReply
  cacheSetFail : String → String → Int → Bool
  mbidLookup : String → String
  metaLookup : String → String → String → String
  connectFail : String → String → Bool
  sendFail : Bool
  cancelFail : Bool
  scheduleFail : Bool
  imageURL : String → String → String
  now : Int

/-! ## `resolveSpotifyURL` (src/main.go) -/

/-- The primary-artist value computed at the top of
`resolveSpotifyURL`: the parsed primary artist, or the first structured
artist's name when the parse is empty and the list is non-empty. -/
def resolvedPrimary (track : TrackInfo) : String :=
  let primary := (parsePrimaryArtist track.Artist).1
  match primary, track.Artists with
  | "", a :: _ => a.Name
  | p, _ => p

/-- The cache-miss continuation of `resolveSpotifyURL` (src/main.go):
MBID lookup, then metadata lookup, then the search-URL fallback, each
successful lookup cached with the long TTL and the fallback cached with
the short TTL. Returns the URL and the collaborator calls issued after
the cache read. -/
def resolveSpotifyURLMiss (env : Env) (track : TrackInfo) (primary cacheKey : String) :
    String × List Effect :=
  let step1 : Option String × List Effect :=
    if track.MBZRecordingID ≠ "" then
      let trackID := env.mbidLookup track.MBZRecordingID
      if trackID ≠ "" then
        let directURL := "https://open.spotify.com/track/" ++ trackID
        (some directURL,
          [Effect.lookupMBID track.MBZRecordingID,
           Effect.cacheSet cacheKey directURL spotifyCacheTTLHit])
      else (none, [Effect.lookupMBID track.MBZRecordingID])
    else (none, [])
  match step1 with
  | (some url, effs) => (url, effs)
  | (none, effs1) =>
    let step2 : Option String × List Effect :=
      if primary ≠ "" ∧ track.Title ≠ "" then
        let trackID := env.metaLookup primary track.Title track.Album
        if trackID ≠ "" then
          let directURL := "https://open.spotify.com/track/" ++ trackID
          (some directURL,
            [Effect.lookupMetadata primary track.Title track.Album,
             Effect.cacheSet cacheKey directURL spotifyCacheTTLHit])
        else (none, [Effect.lookupMetadata primary track.Title track.Album])
      else (none, [])
    match step2 with
    | (some url, effs2) => (url, effs1 ++ effs2)
    | (none, effs2) =>
      let searchURL := buildSpotifySearchURL track.Title track.Artist
      (searchURL,
        effs1 ++ effs2 ++ [Effect.cacheSet cacheKey searchURL spotifyCacheTTLMiss])

/-- Embedding of `resolveSpotifyURL` (src/main.go): compute the primary
artist and cache key, return the cached URL on a cache hit (nil error
and present), and otherwise run the lookup fallback chain. -/
def resolveSpotifyURL (env : Env) (track : TrackInfo) : String × List Effect :=
  let primary := resolvedPrimary track
  let cacheKey := spotifyCacheKey primary track.Title track.Album
  let r := env.cacheGet cacheKey
  if r.fail = false ∧ r.here = true then (r.value, [Effect.cacheGet cacheKey])
  else
    let rest := resolveSpotifyURLMiss env track primary cacheKey
    (rest.1, Effect.cacheGet cacheKey :: rest.2)

/-! ## Configuration loading and the scrobbler entry points (src/main.go) -/

/-- The small overlay image URL (src/main.go `navidromeLogoURL`). -/
def navidromeLogoURL : String :=
  "https://cdn.jsdelivr.net/gh/homarr-labs/dashboard-icons/webp/navidrome.webp"

/-- Activity-name option value (src/main.go `activityNameTrack`). -/
def activityNameTrack : String := "Track"

/-- Activity-name option value (src/main.go `activityNameArtist`). -/
def activityNameArtist : String := "Artist"

/-- Activity-name option value (src/main.go `activityNameAlbum`). -/
def activityNameAlbum : String := "Album"

/-- Lookup in the users map built by `getConfig`. Go map insertion
overwrites, so the last entry for a username wins. -/
def mapLookup (m : List userTokenEntry) (k : String) : Option String :=
  (m.reverse.find? (fun ut => ut.Username == k)).map (fun ut => ut.Token)

/-- Embedding of `getConfig` (src/main.go): returns (clientID, users,
err). Every failure path — missing or empty client id, missing or empty
users value, a users JSON decode error, no (valid) users — logs and
returns nil users with a NIL error; the error component is never
non-nil in the source. -/
def getConfig (env : Env) : String × List userTokenEntry × Option Unit :=
  match env.clientID with
  | none => ("", [], none)
  | some cid =>
    if cid = "" then ("", [], none)
    else
      match env.usersJSON with
      | none => (cid, [], none)
      | some uj =>
        if uj = "" then (cid, [], none)
        else
          match env.usersDecoded with
          | none => (cid, [], none)
          | some uts =>
            if uts = [] then (cid, [], none)
            else
              let users := uts.filter (fun ut => ut.Username ≠ "" && ut.Token ≠ "")
              if users = [] then (cid, [], none) else (cid, users, none)

/-- Embedding of `IsAuthorized` (src/main.go): load the configuration;
on a loader error return it wrapped; otherwise report map membership
with a nil error. -/
def IsAuthorized (env : Env) (username : String) : Bool × Option String :=
  match getConfig env with
  | (_, _, some _) => (false, some "failed to check user authorization")
  | (_, users, none) => ((mapLookup users username).isSome, none)

/-- The scrobbler error kinds distinguished by src/main.go. -/
inductive ScrobblerError where
  | retryLater
  | notAuthorized
deriving Repr, DecidableEq

/-- Reduction of an `Int` to Go `int32` wrap-around semantics. Go's
int32 arithmetic wraps modulo 2^32 per operation; since this reduction
is a ring homomorphism, applying it once to the whole expression gives
the same value as applying it per operation. -/
def wrap32 (n : Int) : Int := (n + 2147483648) % 4294967296 - 2147483648

/-- Embedding of `NowPlaying` (src/main.go): load configuration (a
loader error would be retryable, but the loader never errors), check
authorization, connect, cancel any prior `<username>-clear` schedule,
compute timestamps, resolve the activity name and overlay options,
build the activity (artwork lookup, Spotify URL resolution, search
links), send it, and on success schedule the one-time clear callback
`duration - position + 5` seconds out (in int32 arithmetic); a
scheduling failure is logged and ignored. Returns the error outcome and
the ordered collaborator calls. -/
def NowPlaying (env : Env) (input : NowPlayingRequest) : Option ScrobblerError × List Effect :=
  match getConfig env with
  | (_, _, some _) => (some ScrobblerError.retryLater, [])
  | (clientID, users, none) =>
    match mapLookup users input.Username with
    | none => (some ScrobblerError.notAuthorized, [])
    | some userToken =>
      if env.connectFail input.Username userToken then
        (some ScrobblerError.retryLater, [Effect.connect input.Username userToken])
      else
        let clearKey := input.Username ++ "-clear"
        let startTime := (env.now - input.Position) * 1000
        let endTime := startTime + input.Track.Duration * 1000
        let opt := env.activityNameOption.getD ""
        let activityName :=
          if opt = activityNameTrack then input.Track.Title
          else if opt = activityNameAlbum then input.Track.Album
          else if opt = activityNameArtist then input.Track.Artist
          else "Navidrome"
        let navLogoOption := env.navLogoOption.getD ""
        let smallImage := if navLogoOption ≠ "false" then navidromeLogoURL else ""
        let smallText := if navLogoOption ≠ "false" then "Navidrome" else ""
        let resolved := resolveSpotifyURL env input.Track
        let act : activity :=
          ⟨clientID, activityName, 2, input.Track.Title, spotifySearch input.Track.Title,
           input.Track.Artist, spotifySearch input.Track.Artist, some 2,
           ⟨startTime, endTime⟩,
           ⟨env.imageURL input.Username input.Track.ID, input.Track.Album, resolved.1,
            smallImage, smallText⟩⟩
        let effs :=
          Effect.connect input.Username userToken ::
          Effect.cancelSchedule clearKey ::
          Effect.getImage input.Username input.Track.ID ::
          resolved.2 ++
          [Effect.sendActivity clientID input.Username userToken act]
        if env.sendFail then (some ScrobblerError.retryLater, effs)
        else
          let remainingSeconds := wrap32 (wrap32 input.Track.Duration - input.Position + 5)
          (none,
            effs ++ [Effect.scheduleOneTime remainingSeconds payloadClearActivity clearKey])

/-! ## Helper lemmas -/

/-- A valid small codepoint round-trips through `Char.ofNat`. -/
theorem toNat_ofNat_small (n : Nat) (h2 : n ≤ 122) : (Char.ofNat n).toNat = n := by
  have hv : n.isValidChar := Or.inl (by omega)
  simp [Char.ofNat, hv, Char.ofNatAux, Char.toNat, UInt32.toNat, BitVec.toNat_ofNatLt]

/-- The codepoint of `Char.toLower`. -/
theorem toNat_toLower (c : Char) :
    c.toLower.toNat = if 65 ≤ c.toNat ∧ c.toNat ≤ 90 then c.toNat + 32 else c.toNat := by
  unfold Char.toLower
  by_cases h : 65 ≤ c.toNat ∧ c.toNat ≤ 90
  · simp only [ge_iff_le, h, and_self, if_true]
    exact toNat_ofNat_small _ (by omega)
  · simp only [ge_iff_le, h, if_false]

/-- Characters with equal codepoints are equal. -/
theorem char_eq_of_toNat_eq {c d : Char} (h : c.toNat = d.toNat) : c = d := by
  have hc := Char.ofNat_toNat c
  rw [h, Char.ofNat_toNat d] at hc
  exact hc.symm

/-- ASCII lowering is idempotent on characters. -/
theorem toLower_idem (c : Char) : c.toLower.toLower = c.toLower := by
  apply char_eq_of_toNat_eq
  rw [toNat_toLower (Char.toLower c), toNat_toLower c]
  by_cases h : 65 ≤ c.toNat ∧ c.toNat ≤ 90
  · simp [h]
    omega
  · simp [h]

/-- Lowering is idempotent on strings. -/
theorem strToLower_idem (s : String) : strToLower (strToLower s) = strToLower s := by
  unfold strToLower
  have h : (String.mk (s.toList.map Char.toLower)).toList = s.toList.map Char.toLower := rfl
  rw [h, List.map_map]
  congr 1
  exact List.map_congr_left (fun c _ => toLower_idem c)

/-- `getConfig` never reports an error: every failure path returns a nil
error component. -/
theorem getConfig_err_none (env : Env) : (getConfig env).2.2 = none := by
  unfold getConfig
  rcases env.clientID with _ | cid
  · rfl
  · by_cases h1 : cid = ""
    · simp [h1]
    · rcases henv : env.usersJSON with _ | uj
      · simp [h1]
      · by_cases h2 : uj = ""
        · simp [h1, h2]
        · rcases henv2 : env.usersDecoded with _ | uts
          · simp [h1, h2]
          · by_cases h3 : uts = []
            · simp [h1, h2, h3]
            · simp only [h1, h2, h3, if_false]
              split
              · rfl
              · rfl

/-! ## C4 -/

/-- C4: for all strings (artist, title, album), the cache key equals the
cache key of the lower-cased triple: `spotifyCacheKey` is a pure
function of the lower-cased inputs, so inputs identical modulo case map
to the same key. -/
theorem spotifyCacheKey_case_insensitive (artist title album : String) :
    spotifyCacheKey artist title album =
      spotifyCacheKey (strToLower artist) (strToLower title) (strToLower album) := by
  unfold spotifyCacheKey keyMessage
  rw [strToLower_idem, strToLower_idem, strToLower_idem]

/-! ## C5 -/

/-- C5 counterexample: the triples ("a\x00b", "", "") and
("a", "b\x00", "") differ after lower-casing (already in their first
field), yet produce the same cache key, because the NUL joiner makes
their hashed byte strings identical (both are the bytes
a NUL b NUL NUL). Key injectivity on lower-cased triples fails. -/
theorem spotifyCacheKey_not_injective :
    spotifyCacheKey "a\x00b" "" "" = spotifyCacheKey "a" "b\x00" "" ∧
      strToLower "a\x00b" ≠ strToLower "a" := by
  constructor
  · unfold spotifyCacheKey
    have h : keyMessage "a\x00b" "" "" = keyMessage "a" "b\x00" "" := by decide
    rw [h]
  · decide

/-- C5 (amended): the key is determined by the NUL-joined lower-cased
byte string: triples whose joined byte strings coincide always share a
key. Distinct lower-cased triples are therefore not guaranteed distinct
keys: the joined byte strings can coincide for NUL-containing fields
(see the counterexample), and the 8-byte digest truncation can collide
even when they differ. -/
theorem spotifyCacheKey_determined_by_message (a1 t1 al1 a2 t2 al2 : String)
    (h : keyMessage a1 t1 al1 = keyMessage a2 t2 al2) :
    spotifyCacheKey a1 t1 al1 = spotifyCacheKey a2 t2 al2 := by
  unfold spotifyCacheKey
  rw [h]

/-- C5 witness: the amended theorem applied at the NUL-collision pair. -/
theorem spotifyCacheKey_determined_by_message_witness :
    keyMessage "a\x00b" "" "" = keyMessage "a" "b\x00" "" ∧
      spotifyCacheKey "a\x00b" "" "" = spotifyCacheKey "a" "b\x00" "" :=
  ⟨by decide, spotifyCacheKey_determined_by_message "a\x00b" "" "" "a" "b\x00" "" (by decide)⟩

/-! ## C6 -/

/-- The inner loop of `parseSpotifyID` finds the first non-empty id. -/
theorem firstNonEmptyID_eq_find (l : List String) :
    firstNonEmptyID l = l.find? (fun id => id != "") := by
  induction l with
  | nil => rfl
  | cons x xs ih =>
    unfold firstNonEmptyID
    by_cases h : x = ""
    · simp [h, List.find?, ih]
    · rw [List.find?_cons_of_pos _ (by simp [h])]
      simp [h]

/-- C6: `parseSpotifyID` returns "" on unparsable input, and otherwise
the first non-empty id scanning results in array order and ids within
each result in array order — equivalently, the first non-empty element
of the concatenation of all id lists — hence "" when the array is empty
or every id is empty; as a total function it cannot raise. -/
theorem parseSpotifyID_first_nonempty :
    parseSpotifyID none = "" ∧
    ∀ results : List listenBrainzResult,
      parseSpotifyID (some results) =
        (((results.map (fun r => r.SpotifyTrackIDs)).flatten.find?
            (fun id => id != "")).getD "") := by
  refine ⟨rfl, ?_⟩
  intro results
  show scanResults results = _
  induction results with
  | nil => rfl
  | cons r rest ih =>
    unfold scanResults
    rw [firstNonEmptyID_eq_find]
    simp only [List.map_cons, List.flatten_cons, List.find?_append]
    rcases hr : r.SpotifyTrackIDs.find? (fun id => id != "") with _ | id
    · simpa [hr] using ih
    · simp [hr]

/-! ## C3 -/

/-- C3 counterexample: in "A ft. B feat. C" the separator " ft. "
occurs first (index 1, before " feat. " at index 7), so splitting at
the first separator occurrence in order of appearance would give
("A", "ft. B feat. C"); the code instead tries the separators in the
fixed list order " feat. ", " ft. ", " featuring " and splits at
" feat. ", giving ("A ft. B", "feat. C"). -/
theorem parsePrimaryArtist_appearance_order_false :
    strIndexL ("a ft. b feat. c".toList) (" ft. ".toList) = some 1 ∧
    strIndexL ("a ft. b feat. c".toList) (" feat. ".toList) = some 7 ∧
    parsePrimaryArtist "A ft. B feat. C" = ("A ft. B", "feat. C") ∧
    ("A ft. B", "feat. C") ≠ (("A", "ft. B feat. C") : String × String) := by
  refine ⟨by decide, by decide, by decide, by decide⟩

/-- C3 (amended): for an artist string containing one of the separators
" feat. ", " ft. ", " featuring " (matched case-insensitively),
`parsePrimaryArtist` splits at the leftmost occurrence of the first
separator in that fixed list order that occurs anywhere in the string —
not at the textually first occurrence among all separators — returning
(text before the separator, trimmed, original case; text from the
separator onward, trimmed, original case). -/
theorem parsePrimaryArtist_sep_priority (artist : String) :
    (∀ i, strIndexL ((trimSpaceL artist.toList).map Char.toLower) (" feat. ".toList) = some i →
      parsePrimaryArtist artist =
        (String.mk (trimSpaceL ((trimSpaceL artist.toList).take i)),
         String.mk (trimSpaceL ((trimSpaceL artist.toList).drop i)))) ∧
    (strIndexL ((trimSpaceL artist.toList).map Char.toLower) (" feat. ".toList) = none →
     ∀ i, strIndexL ((trimSpaceL artist.toList).map Char.toLower) (" ft. ".toList) = some i →
      parsePrimaryArtist artist =
        (String.mk (trimSpaceL ((trimSpaceL artist.toList).take i)),
         String.mk (trimSpaceL ((trimSpaceL artist.toList).drop i)))) ∧
    (strIndexL ((trimSpaceL artist.toList).map Char.toLower) (" feat. ".toList) = none →
     strIndexL ((trimSpaceL artist.toList).map Char.toLower) (" ft. ".toList) = none →
     ∀ i, strIndexL ((trimSpaceL artist.toList).map Char.toLower) (" featuring ".toList) = some i →
      parsePrimaryArtist artist =
        (String.mk (trimSpaceL ((trimSpaceL artist.toList).take i)),
         String.mk (trimSpaceL ((trimSpaceL artist.toList).drop i)))) := by
  have hne : ∀ pat : List Char, pat ≠ [] → ∀ i, strIndexL ([].map Char.toLower) pat = some i → False := by
    intro pat hpat i h
    rcases pat with _ | ⟨p, ps⟩
    · exact hpat rfl
    · simp [strIndexL, leadsWith] at h
  have efeat : ((" feat. ".toList : List Char)) = [' ', 'f', 'e', 'a', 't', '.', ' '] := rfl
  have eft : ((" ft. ".toList : List Char)) = [' ', 'f', 't', '.', ' '] := rfl
  have efing : ((" featuring ".toList : List Char)) =
      [' ', 'f', 'e', 'a', 't', 'u', 'r', 'i', 'n', 'g', ' '] := rfl
  refine ⟨?_, ?_, ?_⟩
  · intro i h
    unfold parsePrimaryArtist
    by_cases he : (trimSpaceL artist.toList).isEmpty
    · exact absurd h (by rw [List.isEmpty_iff.mp he]; intro hc; exact hne _ (by decide) i hc)
    · simp only [String.toList, efeat] at h
      simp only [he, Bool.false_eq_true, if_false]
      simp [firstSepHit, featSeps, h]
  · intro hfeat i h
    unfold parsePrimaryArtist
    by_cases he : (trimSpaceL artist.toList).isEmpty
    · exact absurd h (by rw [List.isEmpty_iff.mp he]; intro hc; exact hne _ (by decide) i hc)
    · simp only [String.toList, efeat] at hfeat
      simp only [String.toList, eft] at h
      simp only [he, Bool.false_eq_true, if_false]
      simp [firstSepHit, featSeps, hfeat, h]
  · intro hfeat hft i h
    unfold parsePrimaryArtist
    by_cases he : (trimSpaceL artist.toList).isEmpty
    · exact absurd h (by rw [List.isEmpty_iff.mp he]; intro hc; exact hne _ (by decide) i hc)
    · simp only [String.toList, efeat] at hfeat
      simp only [String.toList, eft] at hft
      simp only [String.toList, efing] at h
      simp only [he, Bool.false_eq_true, if_false]
      simp [firstSepHit, featSeps, hfeat, hft, h]

/-- C3 witness: the amended theorem applied to the three separators at
concrete artists. -/
theorem parsePrimaryArtist_sep_priority_witness :
    (strIndexL ((trimSpaceL ("Wretch 32 Feat. Badness & Ghetts").toList).map Char.toLower)
        (" feat. ".toList) = some 9 ∧
      parsePrimaryArtist "Wretch 32 Feat. Badness & Ghetts" =
        ("Wretch 32", "Feat. Badness & Ghetts")) ∧
    (parsePrimaryArtist "Artist Ft. Guest" = ("Artist", "Ft. Guest")) ∧
    (parsePrimaryArtist "Artist Featuring Someone" = ("Artist", "Featuring Someone")) := by
  refine ⟨⟨by decide, ?_⟩, ?_, ?_⟩
  · have h := (parsePrimaryArtist_sep_priority "Wretch 32 Feat. Badness & Ghetts").1 9 (by decide)
    exact h.trans (by decide)
  · have h := (parsePrimaryArtist_sep_priority "Artist Ft. Guest").2.1 (by decide) 6 (by decide)
    exact h.trans (by decide)
  · have h := (parsePrimaryArtist_sep_priority "Artist Featuring Someone").2.2 (by decide) (by decide)
      6 (by decide)
    exact h.trans (by decide)

/-! ## C1 and C2 -/

/-- The cache key `resolveSpotifyURL` derives for a track (src/main.go
line `cacheKey := spotifyCacheKey(primary, track.Title, track.Album)`). -/
def cacheKeyOf (track : TrackInfo) : String :=
  spotifyCacheKey (resolvedPrimary track) track.Title track.Album

/-- C2: if the cache read succeeds (no error) and reports the key
present, `resolveSpotifyURL` returns the cached string verbatim with the
cache read as its only collaborator call (no lookup, no cache write);
if the cache read errors — or misses — resolution proceeds with exactly
the miss continuation, so an error is treated like a miss. -/
theorem resolveSpotifyURL_cache_hit_or_error (env : Env) (track : TrackInfo) :
    ((env.cacheGet (cacheKeyOf track)).fail = false →
     (env.cacheGet (cacheKeyOf track)).here = true →
      resolveSpotifyURL env track =
        ((env.cacheGet (cacheKeyOf track)).value, [Effect.cacheGet (cacheKeyOf track)])) ∧
    ((env.cacheGet (cacheKeyOf track)).fail = true →
      resolveSpotifyURL env track =
        ((resolveSpotifyURLMiss env track (resolvedPrimary track) (cacheKeyOf track)).1,
         Effect.cacheGet (cacheKeyOf track) ::
           (resolveSpotifyURLMiss env track (resolvedPrimary track) (cacheKeyOf track)).2)) ∧
    ((env.cacheGet (cacheKeyOf track)).here = false →
      resolveSpotifyURL env track =
        ((resolveSpotifyURLMiss env track (resolvedPrimary track) (cacheKeyOf track)).1,
         Effect.cacheGet (cacheKeyOf track) ::
           (resolveSpotifyURLMiss env track (resolvedPrimary track) (cacheKeyOf track)).2)) := by
  have hk : ∀ t : TrackInfo,
      spotifyCacheKey (resolvedPrimary t) t.Title t.Album = cacheKeyOf t := fun _ => rfl
  refine ⟨?_, ?_, ?_⟩
  · intro hf hh
    simp only [resolveSpotifyURL]
    rw [hk track, if_pos ⟨hf, hh⟩]
  · intro hf
    simp only [resolveSpotifyURL]
    rw [hk track, if_neg (by simp [hf])]
  · intro hh
    simp only [resolveSpotifyURL]
    rw [hk track, if_neg (by simp [hh])]

/-- A baseline collaborator environment for concrete witnesses:
configuration present with one user ("alice", "tok1"), cache missing
every key, every lookup empty, every collaborator call succeeding. -/
def envBase : Env :=
  ⟨some "client1", some "[...]", some [⟨"alice", "tok1"⟩],
   none, none,
   fun _ => ⟨"", false, false⟩,
   fun _ _ _ => false,
   fun _ => "",
   fun _ _ _ => "",
   fun _ _ => false,
   false, false, false,
   fun _ _ => "art://x",
   1000⟩

/-- A concrete track used by witnesses. -/
def trackKP : TrackInfo :=
  ⟨"trk9", "Karma Police", "Radiohead", "OK Computer", 200, [], "mbid-123"⟩

/-- C2 witness: the theorem applied to a hit environment (cached value
returned verbatim, only the read issued) and to an erroring cache
(resolution proceeds with the miss continuation). -/
theorem resolveSpotifyURL_cache_hit_or_error_witness :
    (({ envBase with cacheGet := fun _ =>
         ⟨"https://open.spotify.com/track/cached123", true, false⟩ } : Env).cacheGet
        (cacheKeyOf trackKP)).fail = false ∧
    resolveSpotifyURL
        { envBase with cacheGet := fun _ =>
          ⟨"https://open.spotify.com/track/cached123", true, false⟩ } trackKP =
      ("https://open.spotify.com/track/cached123", [Effect.cacheGet (cacheKeyOf trackKP)]) ∧
    (({ envBase with cacheGet := fun _ => ⟨"", false, true⟩ } : Env).cacheGet
        (cacheKeyOf trackKP)).fail = true ∧
    resolveSpotifyURL { envBase with cacheGet := fun _ => ⟨"", false, true⟩ } trackKP =
      ((resolveSpotifyURLMiss { envBase with cacheGet := fun _ => ⟨"", false, true⟩ } trackKP
          (resolvedPrimary trackKP) (cacheKeyOf trackKP)).1,
       Effect.cacheGet (cacheKeyOf trackKP) ::
         (resolveSpotifyURLMiss { envBase with cacheGet := fun _ => ⟨"", false, true⟩ } trackKP
           (resolvedPrimary trackKP) (cacheKeyOf trackKP)).2) :=
  ⟨rfl,
   (resolveSpotifyURL_cache_hit_or_error _ trackKP).1 rfl rfl,
   rfl,
   (resolveSpotifyURL_cache_hit_or_error _ trackKP).2.1 rfl⟩

/-- On anything but a clean cache hit, `resolveSpotifyURL` runs exactly
the miss continuation after the cache read. -/
theorem resolveSpotifyURL_miss_run (env : Env) (track : TrackInfo)
    (hmiss : ¬((env.cacheGet (cacheKeyOf track)).fail = false ∧
               (env.cacheGet (cacheKeyOf track)).here = true)) :
    resolveSpotifyURL env track =
      ((resolveSpotifyURLMiss env track (resolvedPrimary track) (cacheKeyOf track)).1,
       Effect.cacheGet (cacheKeyOf track) ::
         (resolveSpotifyURLMiss env track (resolvedPrimary track) (cacheKeyOf track)).2) := by
  have hk : spotifyCacheKey (resolvedPrimary track) track.Title track.Album =
      cacheKeyOf track := rfl
  simp only [resolveSpotifyURL]
  rw [hk, if_neg hmiss]

/-- C1: on a cache miss the fallback chain runs in order. With a
non-empty recording id and a non-empty id from the lookup-by-id, the
direct track URL is returned and cached with the long TTL. Otherwise
(no id, or empty lookup-by-id), with non-empty parsed primary artist
and title and a non-empty id from the lookup-by-metadata, the direct
URL is returned and cached with the long TTL. Otherwise the search URL
built from the original unparsed artist string and the title is cached
with the short TTL and returned — the bare search root when both are
empty. -/
theorem resolveSpotifyURL_fallback_chain (env : Env) (track : TrackInfo)
    (hmiss : ¬((env.cacheGet (cacheKeyOf track)).fail = false ∧
               (env.cacheGet (cacheKeyOf track)).here = true)) :
    (track.MBZRecordingID ≠ "" → env.mbidLookup track.MBZRecordingID ≠ "" →
      resolveSpotifyURL env track =
        ("https://open.spotify.com/track/" ++ env.mbidLookup track.MBZRecordingID,
         [Effect.cacheGet (cacheKeyOf track),
          Effect.lookupMBID track.MBZRecordingID,
          Effect.cacheSet (cacheKeyOf track)
            ("https://open.spotify.com/track/" ++ env.mbidLookup track.MBZRecordingID)
            spotifyCacheTTLHit])) ∧
    ((track.MBZRecordingID = "" ∨ env.mbidLookup track.MBZRecordingID = "") →
     resolvedPrimary track ≠ "" → track.Title ≠ "" →
     env.metaLookup (resolvedPrimary track) track.Title track.Album ≠ "" →
      resolveSpotifyURL env track =
        ("https://open.spotify.com/track/" ++
           env.metaLookup (resolvedPrimary track) track.Title track.Album,
         Effect.cacheGet (cacheKeyOf track) ::
           (if track.MBZRecordingID = "" then []
            else [Effect.lookupMBID track.MBZRecordingID]) ++
           [Effect.lookupMetadata (resolvedPrimary track) track.Title track.Album,
            Effect.cacheSet (cacheKeyOf track)
              ("https://open.spotify.com/track/" ++
                env.metaLookup (resolvedPrimary track) track.Title track.Album)
              spotifyCacheTTLHit])) ∧
    ((track.MBZRecordingID = "" ∨ env.mbidLookup track.MBZRecordingID = "") →
     (resolvedPrimary track = "" ∨ track.Title = "" ∨
       env.metaLookup (resolvedPrimary track) track.Title track.Album = "") →
      resolveSpotifyURL env track =
        (buildSpotifySearchURL track.Title track.Artist,
         Effect.cacheGet (cacheKeyOf track) ::
           (if track.MBZRecordingID = "" then []
            else [Effect.lookupMBID track.MBZRecordingID]) ++
           (if resolvedPrimary track ≠ "" ∧ track.Title ≠ ""
            then [Effect.lookupMetadata (resolvedPrimary track) track.Title track.Album]
            else []) ++
           [Effect.cacheSet (cacheKeyOf track)
              (buildSpotifySearchURL track.Title track.Artist) spotifyCacheTTLMiss]) ∧
        (track.Artist = "" → track.Title = "" →
          buildSpotifySearchURL track.Title track.Artist = "https://open.spotify.com/search/")) := by
  rw [resolveSpotifyURL_miss_run env track hmiss]
  refine ⟨?_, ?_, ?_⟩
  · intro hm hl
    simp [resolveSpotifyURLMiss, hm, hl]
  · intro hor hp ht hmeta
    rcases hor with hm | hl
    · simp [resolveSpotifyURLMiss, hm, hp, ht, hmeta]
    · by_cases hm : track.MBZRecordingID = ""
      · simp [resolveSpotifyURLMiss, hm, hp, ht, hmeta]
      · simp [resolveSpotifyURLMiss, hm, hl, hp, ht, hmeta]
  · intro hor hfall
    constructor
    · rcases hor with hm | hl
      · rcases hfall with hp | ht | hmeta
        · simp [resolveSpotifyURLMiss, hm, hp]
        · simp [resolveSpotifyURLMiss, hm, ht]
        · by_cases hp : resolvedPrimary track = ""
          · simp [resolveSpotifyURLMiss, hm, hp]
          · by_cases ht : track.Title = ""
            · simp [resolveSpotifyURLMiss, hm, ht]
            · simp [resolveSpotifyURLMiss, hm, hp, ht, hmeta]
      · by_cases hm : track.MBZRecordingID = ""
        · rcases hfall with hp | ht | hmeta
          · simp [resolveSpotifyURLMiss, hm, hp]
          · simp [resolveSpotifyURLMiss, hm, ht]
          · by_cases hp : resolvedPrimary track = ""
            · simp [resolveSpotifyURLMiss, hm, hp]
            · by_cases ht : track.Title = ""
              · simp [resolveSpotifyURLMiss, hm, ht]
              · simp [resolveSpotifyURLMiss, hm, hp, ht, hmeta]
        · rcases hfall with hp | ht | hmeta
          · simp [resolveSpotifyURLMiss, hm, hl, hp]
          · simp [resolveSpotifyURLMiss, hm, hl, ht]
          · by_cases hp : resolvedPrimary track = ""
            · simp [resolveSpotifyURLMiss, hm, hl, hp]
            · by_cases ht : track.Title = ""
              · simp [resolveSpotifyURLMiss, hm, hl, ht]
              · simp [resolveSpotifyURLMiss, hm, hl, hp, ht, hmeta]
    · intro ha ht
      rw [ha, ht]
      decide

/-- Witness environment whose lookup-by-id always yields "track123". -/
def envMBID : Env := { envBase with mbidLookup := fun _ => "track123" }

/-- The witness track without a recording MBID. -/
def trackKPNoMBID : TrackInfo :=
  ⟨"trk9", "Karma Police", "Radiohead", "OK Computer", 200, [], ""⟩

/-- C1 witness: the fallback chain applied at a concrete miss, once on
the MBID branch and once on the search-fallback branch. -/
theorem resolveSpotifyURL_fallback_chain_witness :
    ¬((envMBID.cacheGet (cacheKeyOf trackKP)).fail = false ∧
      (envMBID.cacheGet (cacheKeyOf trackKP)).here = true) ∧
    resolveSpotifyURL envMBID trackKP =
      ("https://open.spotify.com/track/track123",
       [Effect.cacheGet (cacheKeyOf trackKP),
        Effect.lookupMBID "mbid-123",
        Effect.cacheSet (cacheKeyOf trackKP) "https://open.spotify.com/track/track123"
          spotifyCacheTTLHit]) ∧
    resolveSpotifyURL envBase trackKPNoMBID =
      (buildSpotifySearchURL "Karma Police" "Radiohead",
       [Effect.cacheGet (cacheKeyOf trackKPNoMBID),
        Effect.lookupMetadata "Radiohead" "Karma Police" "OK Computer",
        Effect.cacheSet (cacheKeyOf trackKPNoMBID)
          (buildSpotifySearchURL "Karma Police" "Radiohead") spotifyCacheTTLMiss]) :=
  ⟨by decide,
   (resolveSpotifyURL_fallback_chain envMBID trackKP (by decide)).1 (by decide) (by decide),
   ((resolveSpotifyURL_fallback_chain envBase trackKPNoMBID (by decide)).2.2
     (Or.inl rfl) (Or.inr (Or.inr rfl))).1⟩

/-! ## C7 -/

/-- C7: a `NowPlaying` call whose username is not in the configured
user-to-token mapping returns the distinct not-authorized error kind
and issues no collaborator calls at all — in particular no transport
call (connect, sendActivity) and no scheduler call (cancel, schedule). -/
theorem NowPlaying_unauthorized (env : Env) (input : NowPlayingRequest)
    (h : mapLookup (getConfig env).2.1 input.Username = none) :
    NowPlaying env input = (some ScrobblerError.notAuthorized, []) := by
  unfold NowPlaying
  rcases hg : getConfig env with ⟨cid, users, err⟩
  have herr : err = none := by
    have h2 := getConfig_err_none env
    rw [hg] at h2
    exact h2
  subst herr
  rw [hg] at h
  have h3 : mapLookup users input.Username = none := h
  simp [h3]

/-- C7 witness: the theorem applied to a username absent from the
configured map. -/
theorem NowPlaying_unauthorized_witness :
    mapLookup (getConfig envBase).2.1 "bob" = none ∧
    NowPlaying envBase ⟨"bob", trackKP, 30⟩ = (some ScrobblerError.notAuthorized, []) :=
  ⟨by decide, NowPlaying_unauthorized envBase ⟨"bob", trackKP, 30⟩ (by decide)⟩

/-! ## C9 -/

/-- An environment whose stored users value is malformed JSON: the
decoder fails, so the decoded users are absent. -/
def envBadUsers : Env :=
  { envBase with usersJSON := some "not json", usersDecoded := none }

/-- C9 counterexample: with the stored users value malformed (decode
failure), `IsAuthorized` returns plain false with a NIL error — the
loader absorbs the failure (logs and returns no users with a nil
error), so no configuration-load failure is ever surfaced as a
returned error. -/
theorem IsAuthorized_error_swallowed :
    IsAuthorized envBadUsers "alice" = (false, none) := by decide

/-- C9 (amended): `IsAuthorized` never returns an error: the loader's
error component is nil on every path (malformed config included), so
the call reports plain membership in the configured map with a nil
error; as a total function it cannot panic. -/
theorem IsAuthorized_total_no_error (env : Env) (username : String) :
    (getConfig env).2.2 = none ∧
    IsAuthorized env username =
      ((mapLookup (getConfig env).2.1 username).isSome, none) := by
  refine ⟨getConfig_err_none env, ?_⟩
  unfold IsAuthorized
  rcases hg : getConfig env with ⟨cid, users, err⟩
  have herr : err = none := by
    have h2 := getConfig_err_none env
    rw [hg] at h2
    exact h2
  subst herr
  rfl

/-! ## C8 -/

/-- `wrap32` is the identity on the int32 range. -/
theorem wrap32_eq_self (n : Int) (h1 : -2147483648 ≤ n) (h2 : n < 2147483648) :
    wrap32 n = n := by
  unfold wrap32
  omega

/-- C8: a successful `NowPlaying` (configured user, connect and send
succeed) first cancels the schedule keyed `<username>-clear`, then —
after the activity is sent — schedules the one-time clear callback with
the clear payload tag under that same key at exactly
`duration - position + 5` seconds (the bounds keep the int32 arithmetic
exact); the outcome is success whatever the scheduler replies, since a
scheduling failure is only logged. -/
theorem NowPlaying_success_schedules_clear (env : Env) (input : NowPlayingRequest) (tok : String)
    (hauth : mapLookup (getConfig env).2.1 input.Username = some tok)
    (hconn : env.connectFail input.Username tok = false)
    (hsend : env.sendFail = false)
    (hpos : 0 ≤ input.Position)
    (hdur : input.Position ≤ input.Track.Duration)
    (hbound : input.Track.Duration + 5 < 2147483648) :
    ∃ act : activity,
      NowPlaying env input =
        (none,
         Effect.connect input.Username tok ::
         Effect.cancelSchedule (input.Username ++ "-clear") ::
         Effect.getImage input.Username input.Track.ID ::
         (resolveSpotifyURL env input.Track).2 ++
         [Effect.sendActivity (getConfig env).1 input.Username tok act,
          Effect.scheduleOneTime (input.Track.Duration - input.Position + 5)
            payloadClearActivity (input.Username ++ "-clear")]) := by
  have hw : wrap32 (wrap32 input.Track.Duration - input.Position + 5) =
      input.Track.Duration - input.Position + 5 := by
    rw [wrap32_eq_self input.Track.Duration (by omega) (by omega),
      wrap32_eq_self _ (by omega) (by omega)]
  simp only [NowPlaying]
  rcases hg : getConfig env with ⟨cid, users, err⟩
  have herr : err = none := by
    have h2 := getConfig_err_none env
    rw [hg] at h2
    exact h2
  subst herr
  rw [hg] at hauth
  have hauth2 : mapLookup users input.Username = some tok := hauth
  simp only [hauth2, hconn, hsend, Bool.false_eq_true, if_false, hw]
  simp only [List.append_assoc, List.singleton_append]
  exact ⟨_, rfl⟩

/-- C8 witness: the theorem at position 30 and duration 200, scheduling
the clear at exactly 175 seconds. -/
theorem NowPlaying_success_schedules_clear_witness :
    mapLookup (getConfig envBase).2.1 "alice" = some "tok1" ∧
    ∃ act : activity,
      NowPlaying envBase ⟨"alice", trackKP, 30⟩ =
        (none,
         Effect.connect "alice" "tok1" ::
         Effect.cancelSchedule "alice-clear" ::
         Effect.getImage "alice" "trk9" ::
         (resolveSpotifyURL envBase trackKP).2 ++
         [Effect.sendActivity "client1" "alice" "tok1" act,
          Effect.scheduleOneTime 175 payloadClearActivity "alice-clear"]) :=
  ⟨by decide,
   NowPlaying_success_schedules_clear envBase ⟨"alice", trackKP, 30⟩ "tok1"
     (by decide) rfl rfl (by decide) (by decide) (by decide)⟩

/-! ## C10 -/

/-- The miss continuation never issues a scheduler call. -/
theorem resolveSpotifyURLMiss_no_schedule (env : Env) (track : TrackInfo)
    (p k : String) (d : Int) (pl sk : String) :
    Effect.scheduleOneTime d pl sk ∉ (resolveSpotifyURLMiss env track p k).2 := by
  by_cases h1 : track.MBZRecordingID = ""
  · by_cases h2 : p ≠ "" ∧ track.Title ≠ ""
    · by_cases h3 : env.metaLookup p track.Title track.Album = ""
      · simp [resolveSpotifyURLMiss, h1, h2, h3]
      · simp [resolveSpotifyURLMiss, h1, h2, h3]
    · simp [resolveSpotifyURLMiss, h1, h2]
  · by_cases h4 : env.mbidLookup track.MBZRecordingID = ""
    · by_cases h2 : p ≠ "" ∧ track.Title ≠ ""
      · by_cases h3 : env.metaLookup p track.Title track.Album = ""
        · simp [resolveSpotifyURLMiss, h1, h4, h2, h3]
        · simp [resolveSpotifyURLMiss, h1, h4, h2, h3]
      · simp [resolveSpotifyURLMiss, h1, h4, h2]
    · simp [resolveSpotifyURLMiss, h1, h4]

/-- `resolveSpotifyURL` never issues a scheduler call. -/
theorem resolveSpotifyURL_no_schedule (env : Env) (track : TrackInfo)
    (d : Int) (pl sk : String) :
    Effect.scheduleOneTime d pl sk ∉ (resolveSpotifyURL env track).2 := by
  simp only [resolveSpotifyURL]
  split
  · simp
  · simp only [List.mem_cons]
    rintro (h | h)
    · exact absurd h (by simp)
    · exact resolveSpotifyURLMiss_no_schedule env track _ _ d pl sk h

/-- C10: when the transport send fails on an authorized `NowPlaying`
call, the retryable error kind is returned, the prior
`<username>-clear` schedule was already cancelled before the send was
attempted (the cancel precedes the send in the call trace), and no
scheduler call creating a schedule appears anywhere in the trace — the
user is left with no auto-clear callback; the update is not rolled
back / atomic on error. -/
theorem NowPlaying_send_failure_drops_clear (env : Env) (input : NowPlayingRequest)
    (tok : String)
    (hauth : mapLookup (getConfig env).2.1 input.Username = some tok)
    (hconn : env.connectFail input.Username tok = false)
    (hsend : env.sendFail = true) :
    (∃ act : activity,
      NowPlaying env input =
        (some ScrobblerError.retryLater,
         Effect.connect input.Username tok ::
         Effect.cancelSchedule (input.Username ++ "-clear") ::
         Effect.getImage input.Username input.Track.ID ::
         (resolveSpotifyURL env input.Track).2 ++
         [Effect.sendActivity (getConfig env).1 input.Username tok act])) ∧
    (∀ (d : Int) (pl k : String),
      Effect.scheduleOneTime d pl k ∉ (NowPlaying env input).2) := by
  have hmain : ∃ act : activity,
      NowPlaying env input =
        (some ScrobblerError.retryLater,
         Effect.connect input.Username tok ::
         Effect.cancelSchedule (input.Username ++ "-clear") ::
         Effect.getImage input.Username input.Track.ID ::
         (resolveSpotifyURL env input.Track).2 ++
         [Effect.sendActivity (getConfig env).1 input.Username tok act]) := by
    simp only [NowPlaying]
    rcases hg : getConfig env with ⟨cid, users, err⟩
    have herr : err = none := by
      have h2 := getConfig_err_none env
      rw [hg] at h2
      exact h2
    subst herr
    rw [hg] at hauth
    have hauth2 : mapLookup users input.Username = some tok := hauth
    simp only [hauth2, hconn, hsend, Bool.false_eq_true, if_false, if_true]
    exact ⟨_, rfl⟩
  refine ⟨hmain, ?_⟩
  intro d pl k
  obtain ⟨act, hact⟩ := hmain
  rw [hact]
  simp [List.mem_cons, List.mem_append,
    resolveSpotifyURL_no_schedule env input.Track d pl k]

/-- C10 witness: the theorem at a concrete send-failing environment. -/
theorem NowPlaying_send_failure_drops_clear_witness :
    ({ envBase with sendFail := true } : Env).sendFail = true ∧
    (∃ act : activity,
      NowPlaying { envBase with sendFail := true } ⟨"alice", trackKP, 30⟩ =
        (some ScrobblerError.retryLater,
         Effect.connect "alice" "tok1" ::
         Effect.cancelSchedule "alice-clear" ::
         Effect.getImage "alice" "trk9" ::
         (resolveSpotifyURL { envBase with sendFail := true } trackKP).2 ++
         [Effect.sendActivity "client1" "alice" "tok1" act])) ∧
    (∀ (d : Int) (pl k : String),
      Effect.scheduleOneTime d pl k ∉
        (NowPlaying { envBase with sendFail := true } ⟨"alice", trackKP, 30⟩).2) :=
  ⟨rfl,
   (NowPlaying_send_failure_drops_clear { envBase with sendFail := true }
     ⟨"alice", trackKP, 30⟩ "tok1" (by decide) rfl rfl).1,
   (NowPlaying_send_failure_drops_clear { envBase with sendFail := true }
     ⟨"alice", trackKP, 30⟩ "tok1" (by decide) rfl rfl).2⟩
